import Mathlib

/-!
Shallow embedding of `pycall/callfile.py` (class `CallFile`).

The repository ships only `callfile.py`; the `Call` and action classes it
imports (`pycall.call.Call`, `pycall.actions.Application`,
`pycall.actions.Context`) and the error classes (`pycall.errors`) are not in
the source tree, so their data layout is modelled from the spec (§3 data
model, §7 error taxonomy): a `CallTarget`-like record, a tagged union of the
two action variants, and one inductive of error kinds.  Attribute reads such
as `self.channel`, `self.application` delegate to the nested descriptor
objects as the spec's design notes describe; an attribute that the active
action variant does not carry reads as absent (falsy).

All other behaviour is translated directly from `callfile.py`:
`_is_valid`, `_buildfile`, `contents`, `_writefile`, `spool` and `run`.
Filesystem and OS effects inside `run` (mkstemp, getpwnam, chown, utime,
move) are modelled by an explicit environment `Env` recording each call's
outcome, and Python exceptions by `Except PyErr`.
-/

namespace Pycall

/-- Python exception kinds that can cross the boundaries of the modelled
functions.  The first five are the library's own error classes raised in
`callfile.py` (`from .errors import *`).  `MissingChannelError` is modelled
from the spec: the channel-validation error kind (named
`NoChannelDefinedError` in `_is_valid`'s docstring); no code path raises it.
`NameError`, `KeyError`, `AttributeError` and `OSError` model the Python
builtin exceptions that the code can trigger. -/
inductive PyErr where
  | UnknownError
  | NoActionDefinedError
  | NoUserError
  | NoUserPermissionError
  | NoSpoolPermissionError
  | MissingChannelError
  | NameError
  | KeyError
  | AttributeError
  | OSError
  deriving DecidableEq, Repr

/-- Modelled from the spec: the `pycall.Call` target descriptor
(`CallTarget` in §3), whose module is absent from the source tree.
`channel` is a required string; the rest are optional tuning fields.
Numeric fields are `Nat` (the spec constrains them to non-negative
integers). -/
structure Call where
  channel : String
  callerid : Option String := none
  account : Option String := none
  wait_time : Option Nat := none
  max_retries : Option Nat := none
  retry_time : Option Nat := none
  deriving Repr

/-- Modelled from the spec: the action tagged union (§3) — either
`pycall.actions.Application` (name, data) or `pycall.actions.Context`
(context, extension, priority, the latter rendered as a string).  The
modules defining them are absent from the source tree. -/
inductive Action where
  | application (name : String) (data : String)
  | context (context : String) (extension : String) (priority : String)
  deriving Repr

/-- The class attribute `CallFile.DEFAULT_SPOOL_DIR` (callfile.py line 21). -/
def DEFAULT_SPOOL_DIR : String := "/var/spool/asterisk/outgoing"

/-- The `CallFile` object state after a successful `__init__`
(callfile.py lines 23-45).  `set_var` keeps the dict's insertion order;
a Python `None` dict is modelled by `[]`, a `None`/`False` archive flag
by `false`. -/
structure CallFile where
  call : Call
  action : Action
  set_var : List (String × String) := []
  archive : Bool := false
  user : Option String := none
  tmpdir : Option String := none
  file_name : Option String := none
  spool_dir : String
  deriving Repr

/-- `CallFile.__init__` (lines 23-45).  The last assignment is
`self.spool_dir = spool_dir or DEFAULT_SPOOL_DIR`: when `spool_dir` is
falsy (`None` or the empty string) Python evaluates the bare name
`DEFAULT_SPOOL_DIR`, which is a class attribute and not in scope inside
the method body (method bodies do not see the class scope, and no global
of that name exists), so construction raises `NameError`. -/
def CallFile.init (call : Call) (action : Action)
    (set_var : List (String × String)) (archive : Bool)
    (user tmpdir file_name : Option String) (spool_dir : Option String) :
    Except PyErr CallFile :=
  match spool_dir with
  | some s =>
      if s = "" then .error .NameError
      else .ok ⟨call, action, set_var, archive, user, tmpdir, file_name, s⟩
  | none => .error .NameError

/-- Attribute delegation `self.channel` (spec §9: the request reads through
to its CallTarget fields). -/
def CallFile.channel (cf : CallFile) : String := cf.call.channel

/-- `CallFile._is_valid` (lines 47-56): the body is a bare `return True`;
the checks its docstring documents are not implemented. -/
def _is_valid (_cf : CallFile) : Bool := true

/-- The action block of `_buildfile` (lines 73-81): `if self.application:`
emits the application/data pair, `elif self.context and self.extension and
self.priority:` emits the context triple, `else: raise UnknownError`.
Under the delegation model, with an `Application` action the context
attributes are absent (falsy) and vice versa, so an application with an
empty (falsy) name and a context with any empty component both fall through
to the `raise`. -/
def actionDirectives (cf : CallFile) : Except PyErr (List String) :=
  match cf.action with
  | .application name data =>
      if name ≠ "" then .ok ["Application: " ++ name, "Data: " ++ data]
      else .error .UnknownError
  | .context ctx ext pri =>
      if ctx ≠ "" ∧ ext ≠ "" ∧ pri ≠ "" then
        .ok ["Context: " ++ ctx, "Extension: " ++ ext, "Priority: " ++ pri]
      else .error .UnknownError

/-- Lines 83-85: one `Set: name=value` line per `set_var` entry (an absent
dict contributes nothing, like an empty one). -/
def setDirectives (cf : CallFile) : List String :=
  cf.set_var.map fun p => "Set: " ++ (p.1 ++ "=" ++ p.2)

/-- Lines 87-88: `if self.callerid:` — emitted only when present and
non-empty (Python truthiness). -/
def calleridDirective (cf : CallFile) : List String :=
  match cf.call.callerid with
  | some c => if c = "" then [] else ["Callerid: " ++ c]
  | none => []

/-- Lines 90-91: `if self.wait_time:` — `0` is falsy. -/
def waitTimeDirective (cf : CallFile) : List String :=
  match cf.call.wait_time with
  | some n => if n = 0 then [] else ["WaitTime: " ++ toString n]
  | none => []

/-- Lines 93-94: `if self.max_retries:` — `0` is falsy, so a present
`max_retries = 0` emits nothing. -/
def maxRetriesDirective (cf : CallFile) : List String :=
  match cf.call.max_retries with
  | some n => if n = 0 then [] else ["Maxretries: " ++ toString n]
  | none => []

/-- Lines 96-97: `if self.retry_time:`. -/
def retryTimeDirective (cf : CallFile) : List String :=
  match cf.call.retry_time with
  | some n => if n = 0 then [] else ["RetryTime: " ++ toString n]
  | none => []

/-- Lines 99-100: `if self.account:`. -/
def accountDirective (cf : CallFile) : List String :=
  match cf.call.account with
  | some a => if a = "" then [] else ["Account: " ++ a]
  | none => []

/-- Lines 102-103: `if self.archive: cf.append('Archive: yes')`. -/
def archiveDirective (cf : CallFile) : List String :=
  if cf.archive then ["Archive: yes"] else []

/-- The optional directives appended after the action block, in source
order (lines 83-103). -/
def optionalDirectives (cf : CallFile) : List String :=
  setDirectives cf ++ calleridDirective cf ++ waitTimeDirective cf ++
  maxRetriesDirective cf ++ retryTimeDirective cf ++ accountDirective cf ++
  archiveDirective cf

/-- `_buildfile` after the `_is_valid` guard (lines 70-105): the
`Channel:` line first, then the action block, then the optional
directives. -/
def _buildfile_body (cf : CallFile) : Except PyErr (List String) :=
  match actionDirectives cf with
  | .error e => .error e
  | .ok acts =>
      .ok (("Channel: " ++ cf.channel) :: (acts ++ optionalDirectives cf))

/-- `CallFile._buildfile` (lines 58-105): `if not self._is_valid(): raise
UnknownError`, then build the directive list. -/
def _buildfile (cf : CallFile) : Except PyErr (List String) :=
  if _is_valid cf = false then .error .UnknownError
  else _buildfile_body cf

/-- The `contents` property (lines 107-115): newline-join of `_buildfile`. -/
def contents (cf : CallFile) : Except PyErr String :=
  match _buildfile cf with
  | .error e => .error e
  | .ok cfl => .ok (String.intercalate "\n" cfl)

/-- `CallFile.spool` (lines 136-139): the body is a bare
`raise NoActionDefinedError`; it touches no file. -/
def spool (_cf : CallFile) : Except PyErr Bool :=
  .error .NoActionDefinedError

/-- `os.path.basename` semantics for the paths `mkstemp` returns:
the component after the last slash. -/
def basename (s : String) : String :=
  ⟨(s.data.reverse.takeWhile (fun c => c ≠ '/')).reverse⟩

/-- The destination path of the final move (line 175):
`self.spool_dir + path.basename(fname)` — plain string concatenation,
with no separator inserted. -/
def destPath (spool_dir fname : String) : String :=
  spool_dir ++ basename fname

/-- `p` is a proper entry of directory `dir`: `dir`, a slash, then a
non-empty base name. -/
def withinDir (dir p : String) : Prop :=
  ∃ b, b ≠ "" ∧ p = dir ++ "/" ++ b

/-- Outcomes of the OS calls `run` performs, one delivery attempt's worth:
the temp-file name `mkstemp` produced, the user database (`getpwnam`
returning the `(pw_uid, pw_gid)` pair, `none` meaning it raises
`KeyError`), and whether `chown`, `utime` and `move` succeed (`moveOk`
receives source and destination). -/
structure Env where
  tmpName : String
  pwdb : String → Option (Nat × Nat)
  chownOk : Bool
  utimeOk : Bool
  moveOk : String → String → Bool

/-- `CallFile._writefile` (lines 117-134): creates the temp file and writes
the directives; it yields the temp file's absolute name. -/
def _writefile (_cf : CallFile) (env : Env) (_cfl : List String) : String :=
  env.tmpName

/-- The inner `try` of the user step (lines 158-161): `chown(fname, uid,
gid)`, and on any failure `raise NoUserPermissionError`. -/
def chownStep (env : Env) : Except PyErr Unit :=
  if env.chownOk then .ok () else .error .NoUserPermissionError

/-- The body of the outer `try` of the user step (lines 154-161):
`getpwnam(self.user)` (raising `KeyError` for an unknown name), then the
inner chown `try`. -/
def userLookupBody (env : Env) (u : String) : Except PyErr Unit :=
  match env.pwdb u with
  | none => .error .KeyError
  | some _ => chownStep env

/-- The whole user step (lines 152-163): `if self.user:` then the outer
`try`, whose bare `except:` catches ANY exception escaping its body —
including the `NoUserPermissionError` just raised by the inner handler —
and raises `NoUserError`. -/
def userStep (env : Env) (u : Option String) : Except PyErr Unit :=
  match u with
  | none => .ok ()
  | some name =>
      if name = "" then .ok ()
      else
        match userLookupBody env name with
        | .ok _ => .ok ()
        | .error _ => .error .NoUserError

/-- The body of the timestamp `try` (lines 168-170):
`time = mktime(time.timetuple())` — `AttributeError` when `time` is `None`
— then `utime(fname, (time, time))`, which can fail with `OSError`. -/
def timeStepBody (env : Env) (time : Option Nat) : Except PyErr Unit :=
  match time with
  | none => .error .AttributeError
  | some _ => if env.utimeOk then .ok () else .error .OSError

/-- Lines 168-172: the timestamp `try` with its `except: pass` — every
outcome of the body is absorbed. -/
def timeStepCaught (env : Env) (time : Option Nat) : Except PyErr Unit :=
  match timeStepBody env time with
  | .ok _ => .ok ()
  | .error _ => .ok ()

/-- Lines 174-177: `move(fname, self.spool_dir+path.basename(fname))`
inside a `try` whose handler raises `NoSpoolPermissionError`. -/
def moveStep (cf : CallFile) (env : Env) (fname : String) :
    Except PyErr Unit :=
  if env.moveOk fname (destPath cf.spool_dir fname) then .ok ()
  else .error .NoSpoolPermissionError

/-- `CallFile.run` (lines 141-179): build, write the temp file, user step,
timestamp step, move, `return True`. -/
def run (cf : CallFile) (env : Env) (time : Option Nat) :
    Except PyErr Bool := do
  let cfl ← _buildfile cf
  let fname := _writefile cf env cfl
  let _ ← userStep env cf.user
  let _ ← timeStepCaught env time
  let _ ← moveStep cf env fname
  pure true

/-! String toolkit: distinguishing directive lines by their key. -/

/-- Two strings built from distinct keys differ, provided the keys already
differ within their first `k` characters. -/
theorem key_append_ne (a b : String) (k : Nat) (hka : k ≤ a.data.length)
    (hkb : k ≤ b.data.length) (h : a.data.take k ≠ b.data.take k)
    (x y : String) : a ++ x ≠ b ++ y := by
  intro he
  apply h
  have hd : (a ++ x).data = (b ++ y).data := by rw [he]
  rw [String.data_append, String.data_append] at hd
  calc a.data.take k
      = (a.data ++ x.data).take k := (List.take_append_of_le_length hka).symm
    _ = (b.data ++ y.data).take k := by rw [hd]
    _ = b.data.take k := List.take_append_of_le_length hkb

/-- A keyed line differs from the fixed `Archive: yes` line when the key
differs from it within its first `k` characters. -/
theorem key_append_ne_archive (a : String) (k : Nat)
    (hka : k ≤ a.data.length) (hkb : k ≤ ("Archive: yes").data.length)
    (h : a.data.take k ≠ ("Archive: yes").data.take k) (x : String) :
    a ++ x ≠ "Archive: yes" := by
  have hy : "Archive: yes" = "Archive: yes" ++ "" := by decide
  rw [hy]
  exact key_append_ne a "Archive: yes" k hka hkb h x ""

/-- Appending to a common key is injective in the appended part. -/
theorem str_append_left_cancel {a x y : String} (h : a ++ x = a ++ y) :
    x = y := by
  have hd : (a ++ x).data = (a ++ y).data := by rw [h]
  rw [String.data_append, String.data_append] at hd
  exact String.ext (List.append_cancel_left hd)

/-! Line-shape lemmas: every line `_buildfile` emits carries one of the
fixed directive keys. -/

/-- Every `setDirectives` line is a `Set: ` line. -/
theorem mem_setDirectives {cf : CallFile} {l : String}
    (h : l ∈ setDirectives cf) : ∃ v, l = "Set: " ++ v := by
  unfold setDirectives at h
  rcases List.mem_map.mp h with ⟨p, _, hp⟩
  exact ⟨p.1 ++ "=" ++ p.2, hp.symm⟩

/-- Every `calleridDirective` line is a `Callerid: ` line. -/
theorem mem_calleridDirective {cf : CallFile} {l : String}
    (h : l ∈ calleridDirective cf) : ∃ v, l = "Callerid: " ++ v := by
  unfold calleridDirective at h
  cases hc : cf.call.callerid with
  | none => rw [hc] at h; simp at h
  | some c =>
      rw [hc] at h
      by_cases he : c = ""
      · simp [he] at h
      · simp [he] at h; exact ⟨c, h⟩

/-- Every `waitTimeDirective` line is a `WaitTime: ` line. -/
theorem mem_waitTimeDirective {cf : CallFile} {l : String}
    (h : l ∈ waitTimeDirective cf) : ∃ v, l = "WaitTime: " ++ v := by
  unfold waitTimeDirective at h
  cases hc : cf.call.wait_time with
  | none => rw [hc] at h; simp at h
  | some n =>
      rw [hc] at h
      by_cases he : n = 0
      · simp [he] at h
      · simp [he] at h; exact ⟨toString n, h⟩

/-- Every `maxRetriesDirective` line is a `Maxretries: ` line. -/
theorem mem_maxRetriesDirective {cf : CallFile} {l : String}
    (h : l ∈ maxRetriesDirective cf) : ∃ v, l = "Maxretries: " ++ v := by
  unfold maxRetriesDirective at h
  cases hc : cf.call.max_retries with
  | none => rw [hc] at h; simp at h
  | some n =>
      rw [hc] at h
      by_cases he : n = 0
      · simp [he] at h
      · simp [he] at h; exact ⟨toString n, h⟩

/-- Every `retryTimeDirective` line is a `RetryTime: ` line. -/
theorem mem_retryTimeDirective {cf : CallFile} {l : String}
    (h : l ∈ retryTimeDirective cf) : ∃ v, l = "RetryTime: " ++ v := by
  unfold retryTimeDirective at h
  cases hc : cf.call.retry_time with
  | none => rw [hc] at h; simp at h
  | some n =>
      rw [hc] at h
      by_cases he : n = 0
      · simp [he] at h
      · simp [he] at h; exact ⟨toString n, h⟩

/-- Every `accountDirective` line is an `Account: ` line. -/
theorem mem_accountDirective {cf : CallFile} {l : String}
    (h : l ∈ accountDirective cf) : ∃ v, l = "Account: " ++ v := by
  unfold accountDirective at h
  cases hc : cf.call.account with
  | none => rw [hc] at h; simp at h
  | some a =>
      rw [hc] at h
      by_cases he : a = ""
      · simp [he] at h
      · simp [he] at h; exact ⟨a, h⟩

/-- Every `archiveDirective` line is the literal `Archive: yes`. -/
theorem mem_archiveDirective {cf : CallFile} {l : String}
    (h : l ∈ archiveDirective cf) : l = "Archive: yes" := by
  unfold archiveDirective at h
  by_cases ha : cf.archive
  · simp [ha] at h; exact h
  · simp [ha] at h

/-- Every optional directive line carries one of the seven optional keys. -/
theorem optional_line_shape {cf : CallFile} {l : String}
    (h : l ∈ optionalDirectives cf) :
    (∃ v, l = "Set: " ++ v) ∨ (∃ v, l = "Callerid: " ++ v) ∨
    (∃ v, l = "WaitTime: " ++ v) ∨ (∃ v, l = "Maxretries: " ++ v) ∨
    (∃ v, l = "RetryTime: " ++ v) ∨ (∃ v, l = "Account: " ++ v) ∨
    l = "Archive: yes" := by
  unfold optionalDirectives at h
  simp only [List.mem_append] at h
  rcases h with ((((((h | h) | h) | h) | h) | h) | h)
  · exact Or.inl (mem_setDirectives h)
  · exact Or.inr (Or.inl (mem_calleridDirective h))
  · exact Or.inr (Or.inr (Or.inl (mem_waitTimeDirective h)))
  · exact Or.inr (Or.inr (Or.inr (Or.inl (mem_maxRetriesDirective h))))
  · exact Or.inr (Or.inr (Or.inr (Or.inr (Or.inl (mem_retryTimeDirective h)))))
  · exact Or.inr (Or.inr (Or.inr (Or.inr (Or.inr (Or.inl
      (mem_accountDirective h))))))
  · exact Or.inr (Or.inr (Or.inr (Or.inr (Or.inr (Or.inr
      (mem_archiveDirective h))))))

/-- No optional directive line is a `Context: `, `Extension: ` or
`Priority: ` line. -/
theorem no_context_like_in_optional {cf : CallFile} {l : String}
    (h : l ∈ optionalDirectives cf) (v : String) :
    l ≠ "Context: " ++ v ∧ l ≠ "Extension: " ++ v ∧ l ≠ "Priority: " ++ v := by
  rcases optional_line_shape h with
    ⟨w, rfl⟩ | ⟨w, rfl⟩ | ⟨w, rfl⟩ | ⟨w, rfl⟩ | ⟨w, rfl⟩ | ⟨w, rfl⟩ | rfl
  · exact ⟨key_append_ne "Set: " "Context: " 1 (by decide) (by decide)
      (by decide) w v,
      key_append_ne "Set: " "Extension: " 1 (by decide) (by decide)
        (by decide) w v,
      key_append_ne "Set: " "Priority: " 1 (by decide) (by decide)
        (by decide) w v⟩
  · exact ⟨key_append_ne "Callerid: " "Context: " 2 (by decide) (by decide)
      (by decide) w v,
      key_append_ne "Callerid: " "Extension: " 1 (by decide) (by decide)
        (by decide) w v,
      key_append_ne "Callerid: " "Priority: " 1 (by decide) (by decide)
        (by decide) w v⟩
  · exact ⟨key_append_ne "WaitTime: " "Context: " 1 (by decide) (by decide)
      (by decide) w v,
      key_append_ne "WaitTime: " "Extension: " 1 (by decide) (by decide)
        (by decide) w v,
      key_append_ne "WaitTime: " "Priority: " 1 (by decide) (by decide)
        (by decide) w v⟩
  · exact ⟨key_append_ne "Maxretries: " "Context: " 1 (by decide) (by decide)
      (by decide) w v,
      key_append_ne "Maxretries: " "Extension: " 1 (by decide) (by decide)
        (by decide) w v,
      key_append_ne "Maxretries: " "Priority: " 1 (by decide) (by decide)
        (by decide) w v⟩
  · exact ⟨key_append_ne "RetryTime: " "Context: " 1 (by decide) (by decide)
      (by decide) w v,
      key_append_ne "RetryTime: " "Extension: " 1 (by decide) (by decide)
        (by decide) w v,
      key_append_ne "RetryTime: " "Priority: " 1 (by decide) (by decide)
        (by decide) w v⟩
  · exact ⟨key_append_ne "Account: " "Context: " 1 (by decide) (by decide)
      (by decide) w v,
      key_append_ne "Account: " "Extension: " 1 (by decide) (by decide)
        (by decide) w v,
      key_append_ne "Account: " "Priority: " 1 (by decide) (by decide)
        (by decide) w v⟩
  · exact ⟨Ne.symm (key_append_ne_archive "Context: " 1 (by decide)
      (by decide) (by decide) v),
      Ne.symm (key_append_ne_archive "Extension: " 1 (by decide) (by decide)
        (by decide) v),
      Ne.symm (key_append_ne_archive "Priority: " 1 (by decide) (by decide)
        (by decide) v)⟩

/-! Concrete instances used to evaluate the model. -/

/-- A minimal valid call target. -/
def demoCall : Call := { channel := "SIP/1234" }

/-- A complete application action. -/
def demoAction : Action := .application "Playback" "hello-world"

/-- A call file with an empty channel and a complete application action. -/
def cfEmptyChannel : CallFile :=
  { call := { channel := "" }, action := demoAction,
    spool_dir := DEFAULT_SPOOL_DIR }

/-- A call file with an empty channel and no complete action. -/
def cfEmptyChannelNoAction : CallFile :=
  { call := { channel := "" }, action := .context "" "" "",
    spool_dir := DEFAULT_SPOOL_DIR }

/-- A call file whose application action has an empty (falsy) name, so
neither action branch is complete. -/
def cfNoAction : CallFile :=
  { call := demoCall, action := .application "" "x",
    spool_dir := DEFAULT_SPOOL_DIR }

/-- A call file that asks to spool as user `asterisk`. -/
def cfWithUser : CallFile :=
  { call := demoCall, action := demoAction, user := some "asterisk",
    spool_dir := DEFAULT_SPOOL_DIR }

/-- Delivery environment where `getpwnam` resolves `asterisk` to
`(uid, gid) = (100, 100)` but the filesystem rejects `chown`; every other
call succeeds. -/
def envChownRejected : Env :=
  { tmpName := "/tmp/tmpa1b2.call",
    pwdb := fun u => if u = "asterisk" then some (100, 100) else none,
    chownOk := false, utimeOk := true, moveOk := fun _ _ => true }

/-- Delivery environment where `getpwnam` fails to resolve every name;
every other call succeeds. -/
def envUnknownUser : Env :=
  { tmpName := "/tmp/tmpa1b2.call", pwdb := fun _ => none,
    chownOk := true, utimeOk := true, moveOk := fun _ _ => true }

/-- Neither a complete application action (non-empty name) nor a complete
context action (all three parts non-empty) is present — exactly the
fall-through condition of `_buildfile`'s action block. -/
def noCompleteAction (cf : CallFile) : Prop :=
  match cf.action with
  | .application n _ => n = ""
  | .context c e p => c = "" ∨ e = "" ∨ p = ""

/-! The claims. -/

/-- Claim C1: the claim says a rejected `chown` surfaces as
`NoUserPermissionError`, distinct from the lookup error `NoUserError`.
The code disagrees: the inner handler's `raise NoUserPermissionError`
is itself caught by the enclosing bare `except:`, which raises
`NoUserError` — so both an unknown user and a rejected `chown` surface
as `NoUserError`. -/
theorem run_chown_rejected_raises_NoUserError :
    run cfWithUser envUnknownUser none = Except.error PyErr.NoUserError ∧
    run cfWithUser envChownRejected none = Except.error PyErr.NoUserError ∧
    PyErr.NoUserError ≠ PyErr.NoUserPermissionError :=
  ⟨rfl, rfl, by decide⟩

/-- Claim C2: the claim says an empty channel fails `render` with
`MissingChannelError` before action validation.  The code performs no
channel check at all (`_is_valid` returns `True` unconditionally): with a
complete action the empty channel renders successfully as `Channel: `,
and with an incomplete action the error raised is the action error
`UnknownError`, never a channel error. -/
theorem buildfile_empty_channel_not_rejected :
    _buildfile cfEmptyChannel =
      Except.ok ["Channel: ", "Application: Playback", "Data: hello-world"] ∧
    _buildfile cfEmptyChannelNoAction = Except.error PyErr.UnknownError ∧
    PyErr.UnknownError ≠ PyErr.MissingChannelError :=
  ⟨rfl, rfl, by decide⟩

/-- Claim C3 (counterexample): with neither complete action, `_buildfile`
raises `UnknownError`, not `NoActionDefinedError` as claimed. -/
theorem buildfile_incomplete_action_raises_UnknownError :
    _buildfile cfNoAction = Except.error PyErr.UnknownError ∧
    PyErr.UnknownError ≠ PyErr.NoActionDefinedError :=
  ⟨rfl, by decide⟩

/-- Claim C3 (amended): for every request that has neither an application
action with a non-empty name nor a context action with all three parts
non-empty, `_buildfile` fails — with the generic `UnknownError`. -/
theorem buildfile_no_complete_action_fails (cf : CallFile)
    (h : noCompleteAction cf) :
    _buildfile cf = Except.error PyErr.UnknownError := by
  unfold noCompleteAction at h
  cases hact : cf.action with
  | application n d =>
      rw [hact] at h
      simp [_buildfile, _is_valid, _buildfile_body, actionDirectives, hact, h]
  | context c e p =>
      rw [hact] at h
      rcases h with h | h | h <;>
        simp [_buildfile, _is_valid, _buildfile_body, actionDirectives,
          hact, h]

/-- Witness for the amended C3: `cfNoAction` satisfies the hypothesis and
the amended conclusion. -/
theorem buildfile_no_complete_action_fails_witness :
    noCompleteAction cfNoAction ∧
    _buildfile cfNoAction = Except.error PyErr.UnknownError :=
  ⟨rfl, buildfile_no_complete_action_fails cfNoAction rfl⟩

/-- Claim C4: the claim says construction without `spool_dir` succeeds and
defaults to `DEFAULT_SPOOL_DIR`.  The code's line 45 reads the bare name
`DEFAULT_SPOOL_DIR`, a class attribute invisible from the method body, so
construction raises `NameError` instead; the intended default constant
does exist with the well-known value. -/
theorem init_without_spool_dir_raises_NameError :
    CallFile.init demoCall demoAction [] false none none none none =
      Except.error PyErr.NameError ∧
    DEFAULT_SPOOL_DIR = "/var/spool/asterisk/outgoing" :=
  ⟨rfl, rfl⟩

/-- Claim C5: the claim says the move destination is the spool directory
joined with the temp file's base name as a path component inside that
directory.  The code concatenates with no separator, so with the default
spool directory the destination is a sibling path
`/var/spool/asterisk/outgoingtmpa1b2.call`, not a file within the
directory. -/
theorem move_destination_lacks_separator :
    destPath DEFAULT_SPOOL_DIR "/tmp/tmpa1b2.call" =
      "/var/spool/asterisk/outgoingtmpa1b2.call" ∧
    destPath DEFAULT_SPOOL_DIR "/tmp/tmpa1b2.call" ≠
      DEFAULT_SPOOL_DIR ++ "/" ++ basename "/tmp/tmpa1b2.call" ∧
    ¬ withinDir DEFAULT_SPOOL_DIR
      (destPath DEFAULT_SPOOL_DIR "/tmp/tmpa1b2.call") := by
  refine ⟨rfl, by decide, ?_⟩
  rintro ⟨b, _, he⟩
  have h1 : destPath DEFAULT_SPOOL_DIR "/tmp/tmpa1b2.call" =
      "/var/spool/asterisk/outgoingt" ++ "mpa1b2.call" := by decide
  have h2 : DEFAULT_SPOOL_DIR ++ "/" = "/var/spool/asterisk/outgoing/" := by
    decide
  rw [h1, h2] at he
  exact key_append_ne "/var/spool/asterisk/outgoingt"
    "/var/spool/asterisk/outgoing/" 29 (by decide) (by decide) (by decide)
    "mpa1b2.call" b he

/-- Every line the action block emits carries one of the five action
keys. -/
theorem mem_actionDirectives {cf : CallFile} {acts : List String}
    (hacts : actionDirectives cf = Except.ok acts) {l : String}
    (h : l ∈ acts) :
    (∃ v, l = "Application: " ++ v) ∨ (∃ v, l = "Data: " ++ v) ∨
    (∃ v, l = "Context: " ++ v) ∨ (∃ v, l = "Extension: " ++ v) ∨
    (∃ v, l = "Priority: " ++ v) := by
  unfold actionDirectives at hacts
  cases hact : cf.action with
  | application n d =>
      rw [hact] at hacts
      by_cases hn : n = ""
      · simp [hn] at hacts
      · simp [hn] at hacts
        subst hacts
        rcases List.mem_cons.mp h with h | h
        · exact Or.inl ⟨n, h⟩
        · rcases List.mem_cons.mp h with h | h
          · exact Or.inr (Or.inl ⟨d, h⟩)
          · simp at h
  | context c e p =>
      rw [hact] at hacts
      by_cases hc : c ≠ "" ∧ e ≠ "" ∧ p ≠ ""
      · simp only [if_pos hc, Except.ok.injEq] at hacts
        subst hacts
        rcases List.mem_cons.mp h with h | h
        · exact Or.inr (Or.inr (Or.inl ⟨c, h⟩))
        · rcases List.mem_cons.mp h with h | h
          · exact Or.inr (Or.inr (Or.inr (Or.inl ⟨e, h⟩)))
          · rcases List.mem_cons.mp h with h | h
            · exact Or.inr (Or.inr (Or.inr (Or.inr ⟨p, h⟩)))
            · simp at h
      · simp [if_neg hc] at hacts

/-- A call file with an application action and every optional field
present and truthy. -/
def cfAllOptions : CallFile :=
  { call := { channel := "SIP/1234", callerid := some "Bob",
              account := some "acct", wait_time := some 30,
              max_retries := some 2, retry_time := some 60 },
    action := .application "Playback" "hello-world",
    set_var := [("FOO", "1"), ("BAR", "2")], archive := true,
    spool_dir := DEFAULT_SPOOL_DIR }

/-- The directive lines `cfAllOptions` renders to. -/
def lsAllOptions : List String :=
  ["Channel: SIP/1234", "Application: Playback", "Data: hello-world",
   "Set: FOO=1", "Set: BAR=2", "Callerid: Bob", "WaitTime: 30",
   "Maxretries: 2", "RetryTime: 60", "Account: acct", "Archive: yes"]

/-- A call file with a present `max_retries` of `0`. -/
def cfMaxRetriesZero : CallFile :=
  { call := { channel := "SIP/1234", max_retries := some 0 },
    action := .application "Playback" "hello-world",
    spool_dir := DEFAULT_SPOOL_DIR }

/-- Claim C6: with an application action whose name is non-empty, the
output starts with the `Channel:` line, immediately followed by the
`Application:` and `Data:` lines, and no `Context:`, `Extension:` or
`Priority:` line occurs anywhere in the output. -/
theorem render_application_first_lines (cf : CallFile) (n d : String)
    (hact : cf.action = Action.application n d) (hn : n ≠ "") :
    _buildfile cf = Except.ok (("Channel: " ++ cf.channel) ::
      ("Application: " ++ n) :: ("Data: " ++ d) ::
      optionalDirectives cf) ∧
    ∀ v, ("Context: " ++ v) ∉ (("Channel: " ++ cf.channel) ::
        ("Application: " ++ n) :: ("Data: " ++ d) ::
        optionalDirectives cf) ∧
      ("Extension: " ++ v) ∉ (("Channel: " ++ cf.channel) ::
        ("Application: " ++ n) :: ("Data: " ++ d) ::
        optionalDirectives cf) ∧
      ("Priority: " ++ v) ∉ (("Channel: " ++ cf.channel) ::
        ("Application: " ++ n) :: ("Data: " ++ d) ::
        optionalDirectives cf) := by
  have hacts : actionDirectives cf =
      Except.ok ["Application: " ++ n, "Data: " ++ d] := by
    simp [actionDirectives, hact, hn]
  refine ⟨by simp [_buildfile, _is_valid, _buildfile_body, hacts], ?_⟩
  intro v
  refine ⟨?_, ?_, ?_⟩
  · intro hmem
    simp only [List.mem_cons] at hmem
    rcases hmem with h | h | h | h
    · exact key_append_ne "Context: " "Channel: " 4 (by decide) (by decide)
        (by decide) v cf.channel h
    · exact key_append_ne "Context: " "Application: " 1 (by decide)
        (by decide) (by decide) v n h
    · exact key_append_ne "Context: " "Data: " 1 (by decide) (by decide)
        (by decide) v d h
    · exact (no_context_like_in_optional h v).1 rfl
  · intro hmem
    simp only [List.mem_cons] at hmem
    rcases hmem with h | h | h | h
    · exact key_append_ne "Extension: " "Channel: " 1 (by decide)
        (by decide) (by decide) v cf.channel h
    · exact key_append_ne "Extension: " "Application: " 1 (by decide)
        (by decide) (by decide) v n h
    · exact key_append_ne "Extension: " "Data: " 1 (by decide) (by decide)
        (by decide) v d h
    · exact (no_context_like_in_optional h v).2.1 rfl
  · intro hmem
    simp only [List.mem_cons] at hmem
    rcases hmem with h | h | h | h
    · exact key_append_ne "Priority: " "Channel: " 1 (by decide)
        (by decide) (by decide) v cf.channel h
    · exact key_append_ne "Priority: " "Application: " 1 (by decide)
        (by decide) (by decide) v n h
    · exact key_append_ne "Priority: " "Data: " 1 (by decide) (by decide)
        (by decide) v d h
    · exact (no_context_like_in_optional h v).2.2 rfl

/-- Witness for C6: the fully-populated `cfAllOptions` satisfies the
hypotheses and the conclusion. -/
theorem render_application_first_lines_witness :
    cfAllOptions.action = Action.application "Playback" "hello-world" ∧
    ("Playback" : String) ≠ "" ∧
    (_buildfile cfAllOptions = Except.ok
      (("Channel: " ++ cfAllOptions.channel) ::
        ("Application: " ++ "Playback") :: ("Data: " ++ "hello-world") ::
        optionalDirectives cfAllOptions) ∧
    ∀ v, ("Context: " ++ v) ∉ (("Channel: " ++ cfAllOptions.channel) ::
        ("Application: " ++ "Playback") :: ("Data: " ++ "hello-world") ::
        optionalDirectives cfAllOptions) ∧
      ("Extension: " ++ v) ∉ (("Channel: " ++ cfAllOptions.channel) ::
        ("Application: " ++ "Playback") :: ("Data: " ++ "hello-world") ::
        optionalDirectives cfAllOptions) ∧
      ("Priority: " ++ v) ∉ (("Channel: " ++ cfAllOptions.channel) ::
        ("Application: " ++ "Playback") :: ("Data: " ++ "hello-world") ::
        optionalDirectives cfAllOptions)) :=
  ⟨rfl, by decide,
    render_application_first_lines cfAllOptions "Playback" "hello-world"
      rfl (by decide)⟩

/-- Claim C7 (counterexample): a present `max_retries = 0` is falsy in
Python, so its directive line is omitted, contradicting the claim that a
present value including 0 yields a `Maxretries:` line. -/
theorem buildfile_maxretries_zero_omitted :
    cfMaxRetriesZero.call.max_retries = some 0 ∧
    _buildfile cfMaxRetriesZero = Except.ok
      ["Channel: SIP/1234", "Application: Playback",
       "Data: hello-world"] ∧
    "Maxretries: 0" ∉
      ["Channel: SIP/1234", "Application: Playback",
       "Data: hello-world"] :=
  ⟨rfl, rfl, by decide⟩

/-- Claim C7 (amended): the optional directives appear in the fixed
relative order Set, Callerid, WaitTime, Maxretries, RetryTime, Account,
Archive, one line per truthy field (one per variable-mapping entry); a
present `max_retries` yields its `Maxretries:` line exactly when it is
non-zero, and every `Maxretries:` line in the output arises that way. -/
theorem buildfile_optional_order_maxretries (cf : CallFile)
    (ls : List String) (h : _buildfile cf = Except.ok ls) :
    (∃ acts, actionDirectives cf = Except.ok acts ∧
      ls = ("Channel: " ++ cf.channel) :: (acts ++ (setDirectives cf ++
        calleridDirective cf ++ waitTimeDirective cf ++
        maxRetriesDirective cf ++ retryTimeDirective cf ++
        accountDirective cf ++ archiveDirective cf))) ∧
    setDirectives cf =
      cf.set_var.map (fun p => "Set: " ++ (p.1 ++ "=" ++ p.2)) ∧
    (∀ c, cf.call.callerid = some c → c ≠ "" →
      calleridDirective cf = ["Callerid: " ++ c]) ∧
    (∀ n, cf.call.wait_time = some n → n ≠ 0 →
      waitTimeDirective cf = ["WaitTime: " ++ toString n]) ∧
    (∀ n, cf.call.retry_time = some n → n ≠ 0 →
      retryTimeDirective cf = ["RetryTime: " ++ toString n]) ∧
    (∀ a, cf.call.account = some a → a ≠ "" →
      accountDirective cf = ["Account: " ++ a]) ∧
    (cf.archive = true → archiveDirective cf = ["Archive: yes"]) ∧
    (∀ n, cf.call.max_retries = some n → n ≠ 0 →
      ("Maxretries: " ++ toString n) ∈ ls) ∧
    (∀ v, ("Maxretries: " ++ v) ∈ ls →
      ∃ n, cf.call.max_retries = some n ∧ n ≠ 0 ∧ v = toString n) := by
  have hb : _buildfile cf = _buildfile_body cf := rfl
  rw [hb] at h
  unfold _buildfile_body at h
  cases hacts : actionDirectives cf with
  | error e => rw [hacts] at h; simp at h
  | ok acts =>
      rw [hacts] at h
      simp only [Except.ok.injEq] at h
      subst h
      refine ⟨⟨acts, rfl, by simp [optionalDirectives]⟩,
        rfl,
        ?_, ?_, ?_, ?_, ?_, ?_, ?_⟩
      · intro c hc hne; simp [calleridDirective, hc, hne]
      · intro n hn hne; simp [waitTimeDirective, hn, hne]
      · intro n hn hne; simp [retryTimeDirective, hn, hne]
      · intro a ha hne; simp [accountDirective, ha, hne]
      · intro ha; simp [archiveDirective, ha]
      · intro n hmr hne
        simp [optionalDirectives, List.mem_append, maxRetriesDirective,
          hmr, hne]
      · intro v hv
        simp only [optionalDirectives, List.mem_cons, List.mem_append,
          or_assoc] at hv
        rcases hv with h | h | h | h | h | h | h | h | h
        · exact absurd h (key_append_ne "Maxretries: " "Channel: " 1
            (by decide) (by decide) (by decide) v cf.channel)
        · rcases mem_actionDirectives hacts h with
            ⟨w, hw⟩ | ⟨w, hw⟩ | ⟨w, hw⟩ | ⟨w, hw⟩ | ⟨w, hw⟩
          · exact absurd hw (key_append_ne "Maxretries: " "Application: "
              1 (by decide) (by decide) (by decide) v w)
          · exact absurd hw (key_append_ne "Maxretries: " "Data: " 1
              (by decide) (by decide) (by decide) v w)
          · exact absurd hw (key_append_ne "Maxretries: " "Context: " 1
              (by decide) (by decide) (by decide) v w)
          · exact absurd hw (key_append_ne "Maxretries: " "Extension: " 1
              (by decide) (by decide) (by decide) v w)
          · exact absurd hw (key_append_ne "Maxretries: " "Priority: " 1
              (by decide) (by decide) (by decide) v w)
        · rcases mem_setDirectives h with ⟨w, hw⟩
          exact absurd hw (key_append_ne "Maxretries: " "Set: " 1
            (by decide) (by decide) (by decide) v w)
        · rcases mem_calleridDirective h with ⟨w, hw⟩
          exact absurd hw (key_append_ne "Maxretries: " "Callerid: " 2
            (by decide) (by decide) (by decide) v w)
        · rcases mem_waitTimeDirective h with ⟨w, hw⟩
          exact absurd hw (key_append_ne "Maxretries: " "WaitTime: " 1
            (by decide) (by decide) (by decide) v w)
        · unfold maxRetriesDirective at h
          cases hmr : cf.call.max_retries with
          | none => rw [hmr] at h; simp at h
          | some n =>
              rw [hmr] at h
              by_cases hne : n = 0
              · simp [hne] at h
              · simp [hne] at h
                exact ⟨n, rfl, hne, str_append_left_cancel h⟩
        · rcases mem_retryTimeDirective h with ⟨w, hw⟩
          exact absurd hw (key_append_ne "Maxretries: " "RetryTime: " 1
            (by decide) (by decide) (by decide) v w)
        · rcases mem_accountDirective h with ⟨w, hw⟩
          exact absurd hw (key_append_ne "Maxretries: " "Account: " 1
            (by decide) (by decide) (by decide) v w)
        · exact absurd (mem_archiveDirective h)
            (key_append_ne_archive "Maxretries: " 1 (by decide)
              (by decide) (by decide) v)

/-- Witness for the amended C7: `cfAllOptions` satisfies the hypothesis
and the conclusion. -/
theorem buildfile_optional_order_maxretries_witness :
    _buildfile cfAllOptions = Except.ok lsAllOptions ∧
    ((∃ acts, actionDirectives cfAllOptions = Except.ok acts ∧
      lsAllOptions = ("Channel: " ++ cfAllOptions.channel) ::
        (acts ++ (setDirectives cfAllOptions ++
        calleridDirective cfAllOptions ++ waitTimeDirective cfAllOptions ++
        maxRetriesDirective cfAllOptions ++
        retryTimeDirective cfAllOptions ++ accountDirective cfAllOptions ++
        archiveDirective cfAllOptions))) ∧
    setDirectives cfAllOptions =
      cfAllOptions.set_var.map (fun p => "Set: " ++ (p.1 ++ "=" ++ p.2)) ∧
    (∀ c, cfAllOptions.call.callerid = some c → c ≠ "" →
      calleridDirective cfAllOptions = ["Callerid: " ++ c]) ∧
    (∀ n, cfAllOptions.call.wait_time = some n → n ≠ 0 →
      waitTimeDirective cfAllOptions = ["WaitTime: " ++ toString n]) ∧
    (∀ n, cfAllOptions.call.retry_time = some n → n ≠ 0 →
      retryTimeDirective cfAllOptions = ["RetryTime: " ++ toString n]) ∧
    (∀ a, cfAllOptions.call.account = some a → a ≠ "" →
      accountDirective cfAllOptions = ["Account: " ++ a]) ∧
    (cfAllOptions.archive = true →
      archiveDirective cfAllOptions = ["Archive: yes"]) ∧
    (∀ n, cfAllOptions.call.max_retries = some n → n ≠ 0 →
      ("Maxretries: " ++ toString n) ∈ lsAllOptions) ∧
    (∀ v, ("Maxretries: " ++ v) ∈ lsAllOptions →
      ∃ n, cfAllOptions.call.max_retries = some n ∧ n ≠ 0 ∧
        v = toString n)) :=
  ⟨rfl, buildfile_optional_order_maxretries cfAllOptions lsAllOptions rfl⟩

/-- Claim C8: the outcome of `run` is independent of whether `utime`
succeeds; the caught timestamp step always reports success; omitting the
scheduled time changes nothing downstream (delivery proceeds to the move
step); and the uncaught body really can fail (with `OSError` when `utime`
is rejected, with `AttributeError` when no time was supplied). -/
theorem run_timestamp_failures_absorbed (cf : CallFile) (env : Env)
    (t : Option Nat) (b : Bool) :
    run cf { env with utimeOk := b } t = run cf env t ∧
    timeStepCaught env t = Except.ok () ∧
    run cf env none = run cf env t ∧
    timeStepBody { env with utimeOk := false } (some 0) =
      Except.error PyErr.OSError ∧
    timeStepBody env none = Except.error PyErr.AttributeError := by
  have hok : ∀ (e : Env) (t' : Option Nat),
      timeStepCaught e t' = Except.ok () := by
    intro e t'
    unfold timeStepCaught
    cases timeStepBody e t' <;> rfl
  obtain ⟨tn, pw, co, uo, mo⟩ := env
  refine ⟨?_, hok _ _, ?_, rfl, rfl⟩
  · simp [run, hok, _writefile, userStep, userLookupBody, chownStep,
      moveStep]
  · simp [run, hok]

/-- Claim C9: `spool` raises `NoActionDefinedError` unconditionally, for
every call file; its body performs no filesystem effect. -/
theorem spool_always_raises_NoActionDefinedError (cf : CallFile) :
    spool cf = Except.error PyErr.NoActionDefinedError := rfl

/-- Claim C10: `_is_valid` returns `True` for every call file, so
`_buildfile` never takes its validation-failure branch: its result always
agrees with the guard-free remainder `_buildfile_body`. -/
theorem is_valid_always_true_guard_unreachable (cf : CallFile) :
    _is_valid cf = true ∧ _buildfile cf = _buildfile_body cf :=
  ⟨rfl, rfl⟩

end Pycall
